import Mathlib

/-!
# Shallow embedding of the signl triage core

This file embeds, in Lean 4, the triage pipeline of the `signl`
security-advisory notifier (Python): the relevance matcher
(`src/matcher.py`), the scoring engine (`src/scoring.py`), the decision
classifier (`src/decisions.py`), the de-duplication ledger
(`src/state.py`), and the candidate-selection loop of `_poll_once`
(`src/main.py`), together with theorems checking the specification's
claims against these definitions.

Modelling conventions:
* Python `float` values are embedded as `ℚ`; Python `round` (banker's
  rounding, ties to even) is embedded as `pyRound`.
* Python `datetime` values are embedded as `ℤ` (seconds on the UTC time
  line); `timedelta(days = d)` is `d * 86400`.  `datetime.now()` is made
  an explicit `now : ℤ` parameter of every function that calls it.
* Python `dict` (insertion ordered) is embedded as an association list
  `List (String × α)` with key-preserving assignment `dictSet`; Python
  `set` is embedded as an insertion-ordered duplicate-free `List` built
  by `setAdd` (only membership and emptiness of these sets are ever
  consumed by the embedded code).
* The regular expression `\b{token}\b` used for short tokens is embedded
  by `containsWordToken` over ASCII word characters (`[A-Za-z0-9_]`).
-/

namespace Signl

/-! ## Dict / set helpers (Python `dict` / `set` on association lists) -/

/-- Python `d.get(k)`: first binding of key `k`, if any. -/
def dictGet (d : List (String × α)) (k : String) : Option α :=
  (d.find? (fun p => p.1 == k)).map Prod.snd

/-- Python `d.get(k, default)`. -/
def dictGetD (d : List (String × α)) (k : String) (dflt : α) : α :=
  (dictGet d k).getD dflt

/-- Python `d[k] = v`: overwrite in place if the key exists, else append. -/
def dictSet (d : List (String × α)) (k : String) (v : α) : List (String × α) :=
  if d.any (fun p => p.1 == k) then
    d.map (fun p => if p.1 == k then (k, v) else p)
  else
    d ++ [(k, v)]

/-- Python `s.add(x)` on a set modelled as a duplicate-free list. -/
def setAdd (s : List String) (x : String) : List String :=
  if s.contains x then s else s ++ [x]

/-- Union of two Python sets (insertion order of the model). -/
def setUnion (s t : List String) : List String :=
  t.foldl setAdd s

/-! ## Python string primitives

The embedded code uses structural (`List Char`) implementations of the
Python string methods `lower`, `upper`, `strip` and single-character
`replace`, so that every definition evaluates by kernel reduction.  The
feed text handled by the triage core is ASCII, where these agree with
Python. -/

/-- Python `s.lower()`. -/
def pyLower (s : String) : String :=
  ⟨s.data.map Char.toLower⟩

/-- Python `s.upper()`. -/
def pyUpper (s : String) : String :=
  ⟨s.data.map Char.toUpper⟩

/-- Python `s.strip()`: remove leading and trailing whitespace. -/
def pyStrip (s : String) : String :=
  ⟨((s.data.dropWhile Char.isWhitespace).reverse.dropWhile
      Char.isWhitespace).reverse⟩

/-- Python `s.replace(old, new)` for the single-character patterns the
repository uses (`"_" → "-"`, `"." → "-"`), where it is a character
map. -/
def replaceChar (s : String) (old new : Char) : String :=
  ⟨s.data.map (fun c => if c == old then new else c)⟩

/-! ## Text search (`matcher._contains_token` and the `\b` regex) -/

/-- A regex word character: `[A-Za-z0-9_]` (the feed text is ASCII). -/
def isWordChar (c : Char) : Bool :=
  c.isAlphanum || c == '_'

/-- Whether an optional character counts as a word character (text edges
do not). -/
def isWordQ : Option Char → Bool
  | none => false
  | some c => isWordChar c

/-- The `\b` assertion between a left and a right neighbour: exactly one
side is a word character. -/
def boundaryOk (l r : Option Char) : Bool :=
  isWordQ l != isWordQ r

/-- Occurrence of `tok` in `text` starting at index `i`, with `\b` on
both sides (the regex `\btok\b` matching there). -/
def wordTokenAt (tok text : List Char) (i : Nat) : Bool :=
  ((text.drop i).take tok.length == tok)
    && boundaryOk ((text.take i).getLast?) tok.head?
    && boundaryOk tok.getLast? ((text.drop (i + tok.length)).head?)

/-- `re.search(rf"\b\x7btok\x7d\b", text) is not None` for a short token. -/
def containsWordToken (text tok : List Char) : Bool :=
  (List.range (text.length + 1)).any (wordTokenAt tok text)

/-- Occurrence of `tok` in `text` starting at index `i` (plain substring). -/
def subTokenAt (tok text : List Char) (i : Nat) : Bool :=
  (text.drop i).take tok.length == tok

/-- Python `tok in text` (substring containment). -/
def containsSub (text tok : List Char) : Bool :=
  (List.range (text.length + 1)).any (subTokenAt tok text)

/-- `matcher._contains_token`: word-boundary matching for tokens of
length ≤ 3, substring containment otherwise. -/
def _contains_token (text token0 : String) : Bool :=
  let token := pyStrip token0
  if token.isEmpty then false
  else if token.length ≤ 3 then containsWordToken text.data token.data
  else containsSub text.data token.data

/-! ## Data model (`feeds/base.py`, `config.py`, `dependencies/types.py`) -/

/-- A numeric-or-other JSON-ish value inside `FeedItem.raw_data`
(`scoring._extract_epss` only distinguishes numbers from everything
else). -/
inductive RawVal where
  | num (q : ℚ)
  | other
deriving DecidableEq

/-- `feeds.base.FeedItem`.  `published` is seconds on the UTC time line;
`raw_data` is the opaque payload bag (only probed for numeric EPSS
values). -/
structure FeedItem where
  id : String
  source : String
  title : String
  description : String
  url : String
  published : ℤ
  severity : Option String
  cvss_score : Option ℚ
  affected_packages : List String
  raw_data : List (String × RawVal)
  ecosystems : List String
  affected_services : List String
  affected_cloud : List String
  tags : List String
deriving DecidableEq

/-- `config.StackMatchConfig`. -/
structure StackMatchConfig where
  mode : String
  synonyms : Bool
  normalize_names : Bool
deriving DecidableEq

/-- `config.AssetCriticalityConfig` (weight maps keyed by lowercase
name). -/
structure AssetCriticalityConfig where
  services : List (String × ℚ)
  packages : List (String × ℚ)
deriving DecidableEq

/-- `config.StackConfig`.  The Python field `match` is a Lean keyword
and is embedded as `matchCfg`; the `deps` sub-record only drives the
external dependency loader and is not consumed by the triage core, so it
is omitted here. -/
structure StackConfig where
  cloud : List String
  languages : List String
  packages : List (String × List String)
  services : List String
  keywords : List String
  matchCfg : StackMatchConfig
  synonyms : List (String × List String)
  asset_criticality : AssetCriticalityConfig
deriving DecidableEq

/-- `dependencies.types.DependencyGraph` (the `ecosystems` union field is
never read by the matcher and is omitted). -/
structure DependencyGraph where
  direct : List (String × List String)
  transitive : List (String × List String)
deriving DecidableEq

/-- `config.ScoringConfig`. -/
structure ScoringConfig where
  enabled : Bool
  weights : List (String × ℚ)
  thresholds : List (String × ℤ)
  prefer_sources : List String
  keywords : List (String × List String)
deriving DecidableEq

/-! ## Package normalizer (`dependencies/normalize.py`) -/

/-- `dependencies.normalize.normalize_package_name` (every matcher call
site passes a plain string ecosystem, so the `None` case of the Python
signature is represented by `""`). -/
def normalize_package_name (name : String) (ecosystem : String)
    (normalize_names : Bool) : String :=
  let cleaned := pyStrip name
  if !normalize_names then cleaned
  else
    let lowered := pyLower cleaned
    let ecosystem_name := pyLower ecosystem
    if ecosystem_name == "pip" || ecosystem_name == "pypi" then
      replaceChar (replaceChar lowered '_' '-') '.' '-'
    else if ecosystem_name == "npm" then
      replaceChar lowered '_' '-'
    else lowered

/-! ## Matcher (`matcher.py`) -/

/-- `matcher.MatchDetails`: the seven evidence buckets (Python sets). -/
structure MatchDetails where
  direct_package_hits : List String := []
  transitive_package_hits : List String := []
  service_hits : List String := []
  cloud_hits : List String := []
  keyword_hits : List String := []
  language_hits : List String := []
  alias_hits : List String := []
deriving DecidableEq

/-- `matcher.MatchResult`. -/
structure MatchResult where
  is_relevant : Bool
  reasons : List String
  details : MatchDetails
deriving DecidableEq

/-- `matcher.DEFAULT_SYNONYMS`. -/
def DEFAULT_SYNONYMS : List (String × List String) :=
  [("kubernetes", ["k8s", "aks", "eks", "gke"]),
   ("entra-id", ["azure ad", "azure-ad", "entra"]),
   ("aws", ["amazon web services", "amazon aws"])]

/-- `matcher._lower_set`: `{value.lower() for value in values if value}`. -/
def _lower_set (values : List String) : List String :=
  values.foldl (fun s v => if v.isEmpty then s else setAdd s (pyLower v)) []

/-- `matcher._register_aliases`, acting on the pair
(alias→canonical, canonical→alias-set). -/
def _register_aliases
    (maps : List (String × String) × List (String × List String))
    (canonical : String) (aliases : List String) :
    List (String × String) × List (String × List String) :=
  let canonical_norm := pyLower (pyStrip canonical)
  if canonical_norm.isEmpty then maps
  else
    aliases.foldl
      (fun m al =>
        let alias_norm := pyLower (pyStrip al)
        if alias_norm.isEmpty then m
        else
          (dictSet m.1 alias_norm canonical_norm,
           dictSet m.2 canonical_norm
             (setAdd (dictGetD m.2 canonical_norm []) alias_norm)))
      maps

/-- `matcher._build_synonym_maps`. -/
def _build_synonym_maps (custom : List (String × List String))
    (enabled : Bool) :
    List (String × String) × List (String × List String) :=
  if !enabled then ([], [])
  else
    let maps := DEFAULT_SYNONYMS.foldl
      (fun m p => _register_aliases m p.1 p.2) (([], []))
    custom.foldl (fun m p => _register_aliases m p.1 p.2) maps

/-- `matcher._build_package_sets`. -/
def _build_package_sets (config : StackConfig)
    (dependencies : DependencyGraph) (normalize_names : Bool) :
    List (String × List String) × List (String × List String) :=
  let direct := config.packages.foldl
    (fun d p =>
      let eco := pyLower p.1
      dictSet d eco
        (p.2.foldl
          (fun s pkg => setAdd s (normalize_package_name pkg eco normalize_names))
          (dictGetD d eco [])))
    []
  let direct := dependencies.direct.foldl
    (fun d p =>
      let eco := pyLower p.1
      dictSet d eco
        (p.2.foldl
          (fun s pkg => setAdd s (normalize_package_name pkg eco normalize_names))
          (dictGetD d eco [])))
    direct
  let transitive := dependencies.transitive.foldl
    (fun d p =>
      let eco := pyLower p.1
      dictSet d eco
        (p.2.foldl
          (fun s pkg => setAdd s (normalize_package_name pkg eco normalize_names))
          (dictGetD d eco [])))
    []
  (direct, transitive)

/-- The evolving `(details, reasons)` state the matcher helpers mutate. -/
abbrev MatchState := MatchDetails × List String

/-- The body of the per-package test inside `matcher._match_packages`:
direct hit, then (loose) alias against direct, then transitive hit, then
(loose) alias against transitive. -/
def _match_packages_one (mc : StackMatchConfig)
    (synonym_index : List (String × String)) (dset tset : List String)
    (pkg normalized : String) (st : MatchState) : MatchState :=
  if dset.contains normalized then
    ({ st.1 with direct_package_hits := setAdd st.1.direct_package_hits normalized },
     st.2 ++ ["Direct package match: " ++ pkg])
  else
    -- `alias = synonym_index.get(normalized); if alias and alias in direct`
    match (if mc.mode == "loose" then
             match dictGet synonym_index normalized with
             | some a => if !a.isEmpty && dset.contains a then some a else none
             | none => none
           else none) with
    | some a =>
      ({ st.1 with alias_hits := setAdd st.1.alias_hits normalized },
       st.2 ++ ["Package alias match: " ++ pkg ++ " -> " ++ a])
    | none =>
      if tset.contains normalized then
        ({ st.1 with transitive_package_hits := setAdd st.1.transitive_package_hits normalized },
         st.2 ++ ["Transitive package match: " ++ pkg])
      else
        match (if mc.mode == "loose" then
                 match dictGet synonym_index normalized with
                 | some a => if !a.isEmpty && tset.contains a then some a else none
                 | none => none
               else none) with
        | some a =>
          ({ st.1 with alias_hits := setAdd st.1.alias_hits normalized },
           st.2 ++ ["Transitive alias match: " ++ pkg ++ " -> " ++ a])
        | none => st

/-- `matcher._match_package_mentions` (fallback free-text scan when the
item declares no affected packages). -/
def _match_package_mentions (text : String) (mc : StackMatchConfig)
    (synonyms_by_canonical : List (String × List String))
    (direct_packages : List (String × List String)) (st : MatchState) :
    MatchState :=
  direct_packages.foldl
    (fun st p =>
      p.2.foldl
        (fun st pkg =>
          let token := pyLower pkg
          if _contains_token text token then
            ({ st.1 with direct_package_hits := setAdd st.1.direct_package_hits token },
             st.2 ++ ["Package mentioned: " ++ pkg])
          else
            match (if mc.mode == "loose" then
                     (dictGetD synonyms_by_canonical token []).find?
                       (fun al => _contains_token text al)
                   else none) with
            | some al =>
              ({ st.1 with alias_hits := setAdd st.1.alias_hits token },
               st.2 ++ ["Package alias mention: " ++ al ++ " -> " ++ token])
            | none => st)
        st)
    st

/-- `matcher._match_packages`. -/
def _match_packages (item : FeedItem) (text : String)
    (mc : StackMatchConfig) (synonym_index : List (String × String))
    (synonyms_by_canonical : List (String × List String))
    (direct_packages transitive_packages : List (String × List String))
    (st : MatchState) : MatchState :=
  if item.affected_packages.isEmpty then
    _match_package_mentions text mc synonyms_by_canonical direct_packages st
  else
    let item_ecosystems := _lower_set item.ecosystems
    let ecosystems :=
      if !item_ecosystems.isEmpty then item_ecosystems
      else setUnion (direct_packages.map Prod.fst)
        (transitive_packages.map Prod.fst)
    ecosystems.foldl
      (fun st eco =>
        if eco.isEmpty then st
        else
          item.affected_packages.foldl
            (fun st pkg =>
              _match_packages_one mc synonym_index
                (dictGetD direct_packages eco [])
                (dictGetD transitive_packages eco [])
                pkg (normalize_package_name pkg eco mc.normalize_names) st)
            st)
      st

/-- `matcher._match_services`. -/
def _match_services (text : String) (affected : List String)
    (services : List String)
    (synonyms_by_canonical : List (String × List String))
    (mc : StackMatchConfig) (st : MatchState) : MatchState :=
  let affected_set := _lower_set affected
  services.foldl
    (fun st service =>
      let token := pyLower service
      if affected_set.contains token || _contains_token text token then
        ({ st.1 with service_hits := setAdd st.1.service_hits token },
         st.2 ++ ["Service match: " ++ service])
      else if mc.mode == "loose" then
        match (dictGetD synonyms_by_canonical token []).find?
            (fun al => affected_set.contains al || _contains_token text al) with
        | some al =>
          ({ st.1 with service_hits := setAdd st.1.service_hits token },
           st.2 ++ ["Service alias match: " ++ al ++ " -> " ++ service])
        | none => st
      else st)
    st

/-- `matcher._match_cloud`. -/
def _match_cloud (text : String) (affected : List String)
    (clouds : List String)
    (synonyms_by_canonical : List (String × List String))
    (mc : StackMatchConfig) (st : MatchState) : MatchState :=
  let affected_set := _lower_set affected
  clouds.foldl
    (fun st provider =>
      let token := pyLower provider
      if affected_set.contains token || _contains_token text token then
        ({ st.1 with cloud_hits := setAdd st.1.cloud_hits token },
         st.2 ++ ["Cloud match: " ++ provider])
      else if mc.mode == "loose" then
        match (dictGetD synonyms_by_canonical token []).find?
            (fun al => affected_set.contains al || _contains_token text al) with
        | some al =>
          ({ st.1 with cloud_hits := setAdd st.1.cloud_hits token },
           st.2 ++ ["Cloud alias match: " ++ al ++ " -> " ++ provider])
        | none => st
      else st)
    st

/-- `matcher._match_keywords`. -/
def _match_keywords (text : String) (keywords : List String)
    (st : MatchState) : MatchState :=
  keywords.foldl
    (fun st keyword =>
      let token := pyLower keyword
      if _contains_token text token then
        ({ st.1 with keyword_hits := setAdd st.1.keyword_hits token },
         st.2 ++ ["Keyword match: " ++ keyword])
      else st)
    st

/-- `matcher._match_languages`. -/
def _match_languages (text : String) (languages : List String)
    (st : MatchState) : MatchState :=
  languages.foldl
    (fun st language =>
      let token := pyLower language
      if _contains_token text token then
        ({ st.1 with language_hits := setAdd st.1.language_hits token },
         st.2 ++ ["Language match: " ++ language])
      else st)
    st

/-- Lexicographic `≤` on code points (Python string order), structurally
on the character lists. -/
def lexLe : List Char → List Char → Bool
  | [], _ => true
  | _ :: _, [] => false
  | a :: as, b :: bs => if a < b then true else if a == b then lexLe as bs else false

/-- Python `sorted(set(reasons))`: deduplicate, then sort
lexicographically. -/
def pySortedSet (l : List String) : List String :=
  (l.eraseDups).insertionSort (fun a b => lexLe a.data b.data)

/-- `matcher.calculate_relevance`: the public matcher contract. -/
def calculate_relevance (item : FeedItem) (config : StackConfig)
    (dependencies : DependencyGraph) : MatchResult :=
  let text := pyLower (item.title ++ " " ++ item.description)
  let mc := config.matchCfg
  let maps := _build_synonym_maps config.synonyms mc.synonyms
  let synonym_index := maps.1
  let synonyms_by_canonical := maps.2
  let pkgs := _build_package_sets config dependencies mc.normalize_names
  let st : MatchState := ({}, [])
  let st := _match_packages item text mc synonym_index synonyms_by_canonical
    pkgs.1 pkgs.2 st
  let st := _match_services text item.affected_services config.services
    synonyms_by_canonical mc st
  let st := _match_cloud text item.affected_cloud config.cloud
    synonyms_by_canonical mc st
  let st := _match_keywords text config.keywords st
  let st := _match_languages text config.languages st
  let reasons := pySortedSet st.2
  { is_relevant := !reasons.isEmpty, reasons := reasons, details := st.1 }

/-! ## Scoring engine (`scoring.py`) -/

/-- Python 3 `round(x)`: nearest integer, ties to even (banker's
rounding). -/
def pyRound (q : ℚ) : ℤ :=
  if q - q.floor < 1/2 then q.floor
  else if q - q.floor > 1/2 then q.floor + 1
  else if q.floor % 2 = 0 then q.floor else q.floor + 1

/-- Python `math.ceil` on a rational. -/
def pyCeil (q : ℚ) : ℤ :=
  q.ceil

/-- `scoring.AlertScore` (score as a signed integer: the code's
`min(100, ...)` does not clamp below). -/
structure AlertScore where
  score : ℤ
  priority : String
  rationale : List String
deriving DecidableEq

/-- `scoring.SEVERITY_MAP`. -/
def SEVERITY_MAP : List (String × ℤ) :=
  [("critical", 90), ("high", 75), ("medium", 55), ("low", 30)]

/-- `scoring._score_severity` (the `f"CVSS {x:.1f}"` float formatting is
abstracted by `toString`). -/
def _score_severity (item : FeedItem) : ℤ × Option String :=
  match item.cvss_score with
  | some c =>
    (pyRound (min (max c 0) 10 * 10), some ("CVSS " ++ toString c))
  | none =>
    match item.severity with
    | some sev =>
      (match dictGet SEVERITY_MAP (pyLower sev) with
       | some mapped => (mapped, some ("Vendor severity " ++ pyLower sev))
       | none => (0, none))
    | none => (0, none)

/-- `scoring._extract_epss`: probe the raw payload under the known keys,
returning the first numeric value. -/
def _extract_epss (raw : List (String × RawVal)) : Option ℚ :=
  match dictGet raw "epss" with
  | some (.num q) => some q
  | _ =>
    match dictGet raw "epssScore" with
    | some (.num q) => some q
    | _ =>
      match dictGet raw "epss_score" with
      | some (.num q) => some q
      | _ => none

/-- `scoring._score_exploitability`. -/
def _score_exploitability (item : FeedItem) (scoring : ScoringConfig) :
    ℤ × List String :=
  let text := pyLower (item.title ++ " " ++ item.description)
  let acc : ℤ × List String :=
    if pyLower item.source == "cisa"
        || (item.tags.map pyLower).contains "kev" then
      (60, ["CISA KEV listed"])
    else (0, [])
  let acc :=
    match (dictGetD scoring.keywords "exploited_in_wild" []).find?
        (fun k => containsSub text.data (pyLower k).data) with
    | some _ => (acc.1 + 20, acc.2 ++ ["Exploited in the wild keyword"])
    | none => acc
  let acc :=
    match (dictGetD scoring.keywords "poc" []).find?
        (fun k => containsSub text.data (pyLower k).data) with
    | some _ => (acc.1 + 10, acc.2 ++ ["PoC keyword"])
    | none => acc
  let acc :=
    match _extract_epss item.raw_data with
    | some epss =>
      if epss ≥ 1/2 then (acc.1 + 10, acc.2 ++ ["EPSS " ++ toString epss])
      else acc
    | none => acc
  (min acc.1 100, acc.2)

/-- `scoring._criticality_boost`. -/
def _criticality_boost (details : MatchDetails) (stack : StackConfig) : ℚ :=
  let boost : ℚ := details.service_hits.foldl
    (fun b s =>
      match dictGet stack.asset_criticality.services s with
      | some w => if w ≠ 0 then max b (10 * w) else b
      | none => b)
    0
  (setUnion details.direct_package_hits details.transitive_package_hits).foldl
    (fun b p =>
      match dictGet stack.asset_criticality.packages p with
      | some w => if w ≠ 0 then max b (10 * w) else b
      | none => b)
    boost

/-- `scoring._score_relevance`. -/
def _score_relevance (mres : MatchResult) (stack : StackConfig) :
    ℤ × List String :=
  let details := mres.details
  let base : ℤ × List String :=
    if !details.direct_package_hits.isEmpty then (100, ["Direct dependency match"])
    else if !details.transitive_package_hits.isEmpty then (70, ["Transitive dependency match"])
    else if !details.service_hits.isEmpty then (60, ["Service match"])
    else if !details.cloud_hits.isEmpty then (50, ["Cloud match"])
    else if !details.keyword_hits.isEmpty then (35, ["Keyword match"])
    else if !details.language_hits.isEmpty then (25, ["Language match"])
    else (0, [])
  let criticality_boost := _criticality_boost details stack
  if criticality_boost ≠ 0 then
    (min 100 (pyRound ((base.1 : ℚ) + criticality_boost)),
     base.2 ++ ["Critical asset boost"])
  else base

/-- `scoring._score_recency` (`now` made explicit). -/
def _score_recency (now : ℤ) (item : FeedItem) : ℤ × Option String :=
  let age_days : ℚ := max 0 (((now - item.published : ℤ) : ℚ) / 86400)
  let score := max 0 (pyRound (100 - age_days * 3))
  if score ≤ 0 then (0, none)
  else (score, some ("Recency " ++ toString (pyCeil age_days) ++ "d old"))

/-- `scoring._source_boost`. -/
def _source_boost (item : FeedItem) (scoring : ScoringConfig) : ℤ :=
  if (scoring.prefer_sources.map pyLower).contains (pyLower item.source)
  then 3
  else 0

/-- `scoring._priority_for_score`. -/
def _priority_for_score (score : ℤ) (scoring : ScoringConfig) : String :=
  if score ≥ dictGetD scoring.thresholds "P0" 85 then "P0"
  else if score ≥ dictGetD scoring.thresholds "P1" 70 then "P1"
  else if score ≥ dictGetD scoring.thresholds "P2" 50 then "P2"
  else "P3"

/-- `scoring.score_alert`: the public scoring contract (`now` made
explicit for the recency sub-score). -/
def score_alert (now : ℤ) (item : FeedItem) (mres : MatchResult)
    (scoring : ScoringConfig) (stack : StackConfig) : AlertScore :=
  if !scoring.enabled then
    { score := 0, priority := "P3", rationale := ["Scoring disabled"] }
  else
    let sev := _score_severity item
    let expl := _score_exploitability item scoring
    let rel := _score_relevance mres stack
    let rec_ := _score_recency now item
    let weighted : ℚ :=
        (sev.1 : ℚ) * dictGetD scoring.weights "severity" (45/100)
      + (expl.1 : ℚ) * dictGetD scoring.weights "exploitability" (25/100)
      + (rel.1 : ℚ) * dictGetD scoring.weights "relevance" (2/10)
      + (rec_.1 : ℚ) * dictGetD scoring.weights "recency" (1/10)
    let boost := _source_boost item scoring
    let total := min 100 (pyRound (weighted + (boost : ℚ)))
    let rationale :=
      (match sev.2 with | some r => [r] | none => [])
      ++ expl.2 ++ rel.2
      ++ (match rec_.2 with | some r => [r] | none => [])
      ++ (if boost ≠ 0 then ["Preferred source boost (+" ++ toString boost ++ ")"] else [])
    { score := total
      priority := _priority_for_score total scoring
      rationale := rationale }

/-- The `ScoringConfig` produced by `config._load_scoring` from an empty
`scoring:` section (all defaults). -/
def default_scoring : ScoringConfig :=
  { enabled := true
    weights := [("severity", 45/100), ("exploitability", 25/100),
                ("relevance", 2/10), ("recency", 1/10)]
    thresholds := [("P0", 85), ("P1", 70), ("P2", 50), ("P3", 0)]
    prefer_sources := []
    keywords := [("exploited_in_wild", []), ("poc", [])] }

/-! ## Decision classifier (`decisions.py`) -/

/-- `decisions.TRUSTED_SOURCES`. -/
def TRUSTED_SOURCES : List String := ["cisa", "msrc", "osv", "github"]

/-- `decisions.EXPLOIT_PHRASES`. -/
def EXPLOIT_PHRASES : List String :=
  ["exploited in the wild", "actively exploited", "active exploitation",
   "in the wild"]

/-- `decisions.CAMPAIGN_PHRASES`. -/
def CAMPAIGN_PHRASES : List String :=
  ["threat actor", "active campaign", "campaign", "apt", "ransomware"]

/-- `decisions.AlertDecision`. -/
structure AlertDecision where
  immediate : Bool
  reason : String
  mode : String
  matched_always_page : Bool
deriving DecidableEq

/-- `decisions._match_always_page`: first always-page keyword occurring
(case-insensitively) in the item's relevant text, when the item is
relevant. -/
def _match_always_page (item : FeedItem) (mres : MatchResult)
    (always_page : List String) : Option String :=
  if !mres.is_relevant || always_page.isEmpty then none
  else
    let text_bits := [item.title, item.description,
      String.intercalate " " item.affected_packages,
      String.intercalate " " item.affected_services]
    let haystack :=
      pyLower (String.intercalate " " (text_bits.filter (fun b => !b.isEmpty)))
    always_page.find?
      (fun keyword =>
        let needle := pyLower (pyStrip keyword)
        !needle.isEmpty && containsSub haystack.data needle.data)

/-- `decisions._confidence_signal`. -/
def _confidence_signal (item : FeedItem) : Bool × String :=
  if pyLower item.source == "cisa"
      || (item.tags.map pyLower).contains "kev" then
    (true, "CISA KEV")
  else
    let text := pyLower (item.title ++ " " ++ item.description)
    match EXPLOIT_PHRASES.find? (fun phrase => containsSub text.data phrase.data) with
    | some _ => (true, "exploited in the wild")
    | none =>
      match CAMPAIGN_PHRASES.find? (fun phrase => containsSub text.data phrase.data) with
      | some _ => (true, "active campaign or threat actor mention")
      | none =>
        if TRUSTED_SOURCES.contains (pyLower item.source) then
          (true, "trusted source (" ++ pyUpper item.source ++ ")")
        else (false, "no high-confidence signal")

/-- `decisions._relevance_level`. -/
def _relevance_level (mres : MatchResult) : String :=
  let details := mres.details
  if !details.direct_package_hits.isEmpty || !details.service_hits.isEmpty
      || !details.cloud_hits.isEmpty then "high"
  else if !details.transitive_package_hits.isEmpty
      || !details.alias_hits.isEmpty then "medium"
  else "low"

/-- `decisions.classify_alert`: the public decision contract.  (The
Python truthiness test `if matched_keyword` coincides with the `Option`
match because `_match_always_page` never returns an empty string.) -/
def classify_alert (item : FeedItem) (mres : MatchResult)
    (score : AlertScore) (mode : String) (always_page : List String)
    (mode_explicit : Bool) : AlertDecision :=
  match _match_always_page item mres always_page with
  | some matched_keyword =>
    { immediate := true
      reason := "matched always_page keyword \"" ++ matched_keyword ++ "\""
      mode := mode
      matched_always_page := true }
  | none =>
    if !mode_explicit then
      { immediate := true, reason := "relevant to stack (legacy default)"
        mode := mode, matched_always_page := false }
    else
      let conf := _confidence_signal item
      let confidence := conf.1
      let confidence_reason := conf.2
      let relevance_level := _relevance_level mres
      let high_severity := score.priority == "P0" || score.priority == "P1"
      if mode == "quiet" then
        if confidence then
          { immediate := true, reason := "relevant + " ++ confidence_reason
            mode := mode, matched_always_page := false }
        else
          { immediate := false
            reason := "quiet mode: relevant but no high-confidence signal"
            mode := mode, matched_always_page := false }
      else if mode == "loud" then
        { immediate := true, reason := "relevant to stack (loud mode)"
          mode := mode, matched_always_page := false }
      else if relevance_level == "medium" || relevance_level == "low" then
        { immediate := false
          reason := "normal mode: lower relevance routed to digest"
          mode := mode, matched_always_page := false }
      else if high_severity || confidence then
        let reason_bits :=
          (if high_severity then ["high severity"] else [])
          ++ (if confidence then [confidence_reason] else [])
        { immediate := true
          reason := "relevant + " ++ String.intercalate " + " reason_bits
          mode := mode, matched_always_page := false }
      else
        { immediate := false
          reason := "normal mode: relevant but not severe/high-confidence"
          mode := mode, matched_always_page := false }

/-! ## Dedup ledger (`state.py`) -/

/-- `state.State`: the persisted ledger (timestamps as seconds on the
UTC time line). -/
structure State where
  last_poll : Option ℤ
  sent_items : List (String × ℤ)
  version : ℤ := 1
deriving DecidableEq

/-- `state.was_sent`: Python `item_id in state.sent_items` (dict key
membership). -/
def was_sent (state : State) (item_id : String) : Bool :=
  state.sent_items.any (fun p => p.1 == item_id)

/-- `state.mark_sent` with an explicit timestamp (`None` at the call
sites means `datetime.now()`, passed here as `now`). -/
def mark_sent (state : State) (item_id : String) (timestamp : ℤ) : State :=
  { state with sent_items := dictSet state.sent_items item_id timestamp }

/-- `state.prune_sent` (`now` made explicit; the Python default for
`days` is 30, which every call site uses). -/
def prune_sent (now : ℤ) (state : State) (days : ℤ) : State :=
  let cutoff := now - days * 86400
  { state with sent_items := state.sent_items.filter (fun p => p.2 ≥ cutoff) }

/-! ## Persisted ledger file parsing (`state.load_state`) -/

/-- A parsed JSON document, as Python's `json.load` would produce it. -/
inductive Json where
  | null
  | bool (b : Bool)
  | num (q : ℚ)
  | str (s : String)
  | arr (items : List Json)
  | obj (fields : List (String × Json))

/-- The contents of the persisted ledger file as `load_state` observes
them: the path is absent, the file holds bytes `json.load` rejects
(raising `json.JSONDecodeError`), or it parses to a JSON document. -/
inductive LedgerFile where
  | missing
  | unparseable
  | parsed (j : Json)

/-- Truncation toward zero, as Python `int()` applied to a float. -/
def ratTrunc (q : ℚ) : ℤ :=
  if q < 0 then -((-q).floor) else q.floor

/-- Python `int(value)` on a JSON value: numbers truncate, strings
parse (raising `ValueError` when malformed), booleans map to 0/1,
everything else raises `TypeError`. -/
def pyInt : Json → Except String ℤ
  | .num q => .ok (ratTrunc q)
  | .str s =>
    (match (pyStrip s).toInt? with
     | some n => .ok n
     | none => .error "ValueError")
  | .bool b => .ok (if b then 1 else 0)
  | _ => .error "TypeError"

/-- Python `str(value)` on a JSON value (string keys are the only case
the repository's state files exercise; compound values are abstracted). -/
def pyStr : Json → String
  | .str s => s
  | .num q => toString q
  | .bool b => if b then "True" else "False"
  | .null => "None"
  | .arr _ => "<list>"
  | .obj _ => "<dict>"

/-- `state._parse_sent_items`.  `parseDT` embeds
`state._parse_datetime` / `datetime.fromisoformat` (`none` when the
library would raise `ValueError`); `now` embeds `datetime.now()`. -/
def _parse_sent_items (parseDT : String → Option ℤ) (now : ℤ) :
    Option Json → List (String × ℤ)
  | none => []
  | some .null => []
  | some (.arr xs) => xs.foldl (fun d it => dictSet d (pyStr it) now) []
  | some (.obj fields) =>
    fields.foldl
      (fun d p =>
        match p.2 with
        | .str s => dictSet d p.1 ((parseDT s).getD now)
        | _ => dictSet d p.1 now)
      []
  | some _ => []

/-- `state.load_state`.  The result is `Except`: `load_state` has no
exception handler of its own, so `json.JSONDecodeError` from
`json.load`, `ValueError` from `_parse_datetime` on a malformed
`last_poll` string, and `TypeError`/`ValueError` from `int()` on a bad
`version` all propagate to the caller. -/
def load_state (parseDT : String → Option ℤ) (now : ℤ) :
    LedgerFile → Except String State
  | .missing => .ok { last_poll := none, sent_items := [] }
  | .unparseable => .error "json.JSONDecodeError"
  | .parsed raw =>
    match raw with
    | .obj fields => do
      let last_poll ←
        (match dictGet fields "last_poll" with
         | some (.str s) =>
           (match parseDT s with
            | some t => Except.ok (some t)
            | none => Except.error "ValueError")
         | _ => Except.ok none)
      let sent_items := _parse_sent_items parseDT now (dictGet fields "sent_items")
      let version ← pyInt ((dictGet fields "version").getD (.num 1))
      Except.ok { last_poll := last_poll, sent_items := sent_items,
                  version := version }
    | _ => .ok { last_poll := none, sent_items := [] }

/-! ## Poll-cycle candidate selection (`main._poll_once`, lines 238-261) -/

/-- `main._is_low_severity`. -/
def _is_low_severity (item : FeedItem) : Bool :=
  match item.cvss_score with
  | none => false
  | some c => c < 4

/-- `main._below_min_cvss`. -/
def _below_min_cvss (item : FeedItem) (min_score : Option ℚ) : Bool :=
  match min_score, item.cvss_score with
  | some ms, some c => c < ms
  | _, _ => false

/-- `main._normalize_dt`: in this embedding every timestamp already
lives on the UTC time line, so the naive-to-UTC adjustment is the
identity. -/
def _normalize_dt (value : ℤ) : ℤ :=
  value

/-- The body of the first loop of `main._poll_once` for one item: skip
already-sent, low-severity and below-min-CVSS items; run the matcher on
the remainder; in dry-run mode mark matched items sent at once,
otherwise score them and collect them as delivery candidates. -/
def _poll_once_step (dry_run : Bool) (include_low_severity : Bool)
    (min_cvss_score : Option ℚ) (stack : StackConfig)
    (dependencies : DependencyGraph) (scoring : ScoringConfig) (now : ℤ)
    (acc : State × List (FeedItem × MatchResult × AlertScore))
    (item : FeedItem) : State × List (FeedItem × MatchResult × AlertScore) :=
  if was_sent acc.1 item.id then acc
  else if !include_low_severity && _is_low_severity item then acc
  else if _below_min_cvss item min_cvss_score then acc
  else
    let mres := calculate_relevance item stack dependencies
    if !mres.is_relevant then acc
    else if dry_run then (mark_sent acc.1 item.id now, acc.2)
    else
      let score := score_alert now item mres scoring stack
      (acc.1, acc.2 ++ [(item, mres, score)])

/-- The first loop of `main._poll_once`: walk the pooled items in
ascending publication order, applying `_poll_once_step` to each.
Returns the threaded ledger state and the candidate list; only the
items appearing in the candidate list (and, in dry-run mode, the items
freshly marked sent) were evaluated by the matcher. -/
def _poll_once_scan (dry_run : Bool) (include_low_severity : Bool)
    (min_cvss_score : Option ℚ) (stack : StackConfig)
    (dependencies : DependencyGraph) (scoring : ScoringConfig) (now : ℤ)
    (state : State) (items : List FeedItem) :
    State × List (FeedItem × MatchResult × AlertScore) :=
  (items.insertionSort
    (fun a b => _normalize_dt a.published ≤ _normalize_dt b.published)).foldl
    (_poll_once_step dry_run include_low_severity min_cvss_score stack
      dependencies scoring now)
    (state, [])

/-! ## Facts about `pyRound` -/

lemma ratFloor_eq_intFloor (q : ℚ) : q.floor = ⌊q⌋ := by
  have h1 : q.floor ≤ ⌊q⌋ := Int.le_floor.mpr (Rat.le_floor.mp le_rfl)
  have h2 : ⌊q⌋ ≤ q.floor := Rat.le_floor.mpr (Int.floor_le q)
  omega

lemma pyRound_ge_floor (q : ℚ) : ⌊q⌋ ≤ pyRound q := by
  unfold pyRound
  rw [ratFloor_eq_intFloor]
  split_ifs <;> omega

lemma pyRound_le_floor_add_one (q : ℚ) : pyRound q ≤ ⌊q⌋ + 1 := by
  unfold pyRound
  rw [ratFloor_eq_intFloor]
  split_ifs <;> omega

lemma pyRound_nonneg {q : ℚ} (h : 0 ≤ q) : 0 ≤ pyRound q := by
  have h1 := pyRound_ge_floor q
  have h2 : (0:ℤ) ≤ ⌊q⌋ := Int.floor_nonneg.mpr h
  omega

lemma pyRound_mono {p q : ℚ} (h : p ≤ q) : pyRound p ≤ pyRound q := by
  rcases lt_or_le ⌊p⌋ ⌊q⌋ with hf | hf
  · have h1 := pyRound_le_floor_add_one p
    have h2 := pyRound_ge_floor q
    omega
  · have hf2 : ⌊p⌋ = ⌊q⌋ := le_antisymm (Int.floor_le_floor h) hf
    have hfp := ratFloor_eq_intFloor p
    have hfq := ratFloor_eq_intFloor q
    unfold pyRound
    rw [hfp, hfq, hf2]
    split_ifs <;> first | omega | (exfalso; linarith)

lemma pyRound_intCast (n : ℤ) : pyRound (n : ℚ) = n := by
  unfold pyRound
  rw [ratFloor_eq_intFloor]
  simp

/-! ## Facts about the association-list model -/

lemma find_entry_map_ne (d : List (String × α)) (i j : String) (v : α)
    (hne : j ≠ i) :
    (d.map (fun p => if p.1 == j then (j, v) else p)).find? (fun p => p.1 == i)
      = d.find? (fun p => p.1 == i) := by
  have hji : (j == i) = false := by simpa using hne
  induction d with
  | nil => rfl
  | cons hd tl ih =>
    rw [List.map_cons]
    by_cases hj : hd.1 == j
    · have hj' : hd.1 = j := by simpa using hj
      rw [if_pos hj, List.find?_cons, List.find?_cons]
      have h1 : ((j, v).1 == i) = false := hji
      have h2 : (hd.1 == i) = false := by rw [hj']; exact hji
      rw [h1, h2]
      exact ih
    · rw [if_neg hj, List.find?_cons, List.find?_cons]
      by_cases hi : hd.1 == i
      · rw [hi]
      · have hi' : (hd.1 == i) = false := by simpa using hi
        rw [hi']
        exact ih

lemma find_entry_append_ne (d : List (String × α)) (i j : String) (v : α)
    (hne : j ≠ i) :
    (d ++ [(j, v)]).find? (fun p => p.1 == i) = d.find? (fun p => p.1 == i) := by
  have hji : (j == i) = false := by simpa using hne
  induction d with
  | nil =>
    rw [List.nil_append, List.find?_cons]
    have h1 : ((j, v).1 == i) = false := hji
    rw [h1]
  | cons hd tl ih =>
    rw [List.cons_append, List.find?_cons, List.find?_cons]
    by_cases hi : hd.1 == i
    · rw [hi]
    · have hi' : (hd.1 == i) = false := by simpa using hi
      rw [hi']
      exact ih

lemma dictGet_dictSet_ne (d : List (String × α)) (i j : String) (v : α)
    (hne : j ≠ i) : dictGet (dictSet d j v) i = dictGet d i := by
  unfold dictGet dictSet
  split
  · rw [find_entry_map_ne d i j v hne]
  · rw [find_entry_append_ne d i j v hne]

lemma any_key_dictSet_of (d : List (String × α)) (i j : String) (v : α)
    (h : d.any (fun p => p.1 == i) = true) :
    (dictSet d j v).any (fun p => p.1 == i) = true := by
  unfold dictSet
  split
  · simp only [List.any_map, List.any_eq_true] at h ⊢
    obtain ⟨p, hp, hpk⟩ := h
    refine ⟨p, hp, ?_⟩
    by_cases hj : p.1 == j
    · have hj' : p.1 = j := by simpa using hj
      simp only [Function.comp_apply, hj, if_true]
      rw [← hj']
      exact hpk
    · simp only [Function.comp_apply, hj, if_neg, Bool.false_eq_true, not_false_eq_true]
      simpa [hj] using hpk
  · rw [List.any_append]
    simp [h]

lemma was_sent_mark_sent (st : State) (i j : String) (t : ℤ)
    (h : was_sent st i = true) : was_sent (mark_sent st j t) i = true := by
  unfold was_sent mark_sent at *
  exact any_key_dictSet_of _ _ _ _ h

/-- The invariant the poll loop preserves for an identifier `i` already
in the ledger: it stays in the ledger, its stored timestamp is
untouched, and it never enters the candidate list. -/
def PollInv (i : String)
    (acc : State × List (FeedItem × MatchResult × AlertScore))
    (entry : Option ℤ) : Prop :=
  was_sent acc.1 i = true
  ∧ dictGet acc.1.sent_items i = entry
  ∧ ∀ c ∈ acc.2, c.1.id ≠ i

lemma poll_step_preserves_inv (dry_run include_low_severity : Bool)
    (min_cvss_score : Option ℚ) (stack : StackConfig)
    (dependencies : DependencyGraph) (scoring : ScoringConfig) (now : ℤ)
    (i : String) (entry : Option ℤ)
    (acc : State × List (FeedItem × MatchResult × AlertScore))
    (item : FeedItem) (h : PollInv i acc entry) :
    PollInv i (_poll_once_step dry_run include_low_severity min_cvss_score
      stack dependencies scoring now acc item) entry := by
  obtain ⟨h1, h2, h3⟩ := h
  simp only [_poll_once_step]
  split
  · exact ⟨h1, h2, h3⟩
  next hsent =>
    have hne : item.id ≠ i := by
      intro hid
      apply hsent
      rw [hid]
      exact h1
    split
    · exact ⟨h1, h2, h3⟩
    split
    · exact ⟨h1, h2, h3⟩
    split
    · exact ⟨h1, h2, h3⟩
    split
    · refine ⟨was_sent_mark_sent _ _ _ _ h1, ?_, h3⟩
      rw [show (mark_sent acc.1 item.id now).sent_items
            = dictSet acc.1.sent_items item.id now from rfl]
      rw [dictGet_dictSet_ne _ _ _ _ hne]
      exact h2
    · refine ⟨h1, h2, ?_⟩
      intro c hc
      rcases List.mem_append.mp hc with hc | hc
      · exact h3 c hc
      · simp only [List.mem_singleton] at hc
        subst hc
        exact hne

lemma poll_foldl_preserves_inv (dry_run include_low_severity : Bool)
    (min_cvss_score : Option ℚ) (stack : StackConfig)
    (dependencies : DependencyGraph) (scoring : ScoringConfig) (now : ℤ)
    (i : String) (entry : Option ℤ) :
    ∀ (l : List FeedItem)
      (acc : State × List (FeedItem × MatchResult × AlertScore)),
      PollInv i acc entry →
      PollInv i (l.foldl (_poll_once_step dry_run include_low_severity
        min_cvss_score stack dependencies scoring now) acc) entry := by
  intro l
  induction l with
  | nil => intro acc h; exact h
  | cons hd tl ih =>
    intro acc h
    exact ih _ (poll_step_preserves_inv dry_run include_low_severity
      min_cvss_score stack dependencies scoring now i entry acc hd h)

/-! ## Claim theorems -/

/-- C8: `prune_sent` with retention 30 days removes exactly the ledger
entries whose timestamp is strictly older than `now` minus 30 days,
retains every entry at or after that boundary, and modifies no retained
entry's timestamp (entries survive as unchanged pairs). -/
theorem c8_prune_sent_exact (now : ℤ) (state : State) (id : String) (ts : ℤ) :
    (id, ts) ∈ (prune_sent now state 30).sent_items ↔
      ((id, ts) ∈ state.sent_items ∧ now - 30 * 86400 ≤ ts) := by
  simp [prune_sent, List.mem_filter, ge_iff_le]

/-- C1 (code bug): on a persisted ledger file whose contents `json.load`
cannot parse, `load_state` does not return an empty ledger — the
`json.JSONDecodeError` escapes, because the `json.load` call at
`state.py:35` is wrapped in no handler.  The spec requires corrupt state
to degrade to an empty ledger without raising. -/
theorem c1_load_state_unparseable_raises :
    load_state (fun _ => none) 0 .unparseable = .error "json.JSONDecodeError" :=
  rfl

/-- C5: with `mode_explicit = false`, `classify_alert` returns
`immediate = true` for every item, match result, score, mode value and
always-page list: either the always-page rule fires (immediate), or the
legacy-default rule fires (immediate), both before confidence or
relevance level are computed. -/
theorem c5_legacy_mode_always_immediate (item : FeedItem)
    (mres : MatchResult) (score : AlertScore) (mode : String)
    (always_page : List String) :
    (classify_alert item mres score mode always_page false).immediate = true := by
  unfold classify_alert
  cases _match_always_page item mres always_page <;> simp

/-- C4: in explicitly configured mode `"quiet"`, an item that matches no
always-page keyword and carries no confidence signal is deferred
(`immediate = false`) whatever its score — in particular even at tier
P0. -/
theorem c4_quiet_defers_without_confidence (item : FeedItem)
    (mres : MatchResult) (score : AlertScore) (always_page : List String)
    (hap : _match_always_page item mres always_page = none)
    (hconf : (_confidence_signal item).1 = false) :
    (classify_alert item mres score "quiet" always_page true).immediate = false := by
  unfold classify_alert
  rw [hap]
  simp [hconf]

/-- A feed item with a P0-range CVSS value but no KEV tag, no
exploitation/campaign phrasing, and a non-trusted source. -/
def c4_item : FeedItem :=
  { id := "CVE-2024-0001", source := "nvd", title := "hello",
    description := "world", url := "", published := 0, severity := none,
    cvss_score := none, affected_packages := [], raw_data := [],
    ecosystems := [], affected_services := [], affected_cloud := [],
    tags := [] }

/-- A relevant match result with a direct package hit. -/
def c4_match : MatchResult :=
  { is_relevant := true, reasons := ["Direct package match: x"],
    details := { direct_package_hits := ["x"] } }

/-- A P0 alert score. -/
def c4_score : AlertScore :=
  { score := 90, priority := "P0", rationale := [] }

/-- C2: an item whose identifier sits in the ledger with a timestamp
inside the 30-day retention window is skipped by the poll loop before
relevance matching: it never appears among the delivery candidates, and
its ledger entry (timestamp included) is untouched by the scan, in
dry-run and normal mode alike. -/
theorem c2_ledger_entry_never_reevaluated (dry_run include_low_severity : Bool)
    (min_cvss_score : Option ℚ) (stack : StackConfig)
    (dependencies : DependencyGraph) (scoring : ScoringConfig) (now : ℤ)
    (state : State) (items : List FeedItem) (i : String) (ts : ℤ)
    (hmem : (i, ts) ∈ state.sent_items)
    (hwin : now - 30 * 86400 ≤ ts) :
    (∀ c ∈ (_poll_once_scan dry_run include_low_severity min_cvss_score
        stack dependencies scoring now state items).2, c.1.id ≠ i)
    ∧ dictGet (_poll_once_scan dry_run include_low_severity min_cvss_score
        stack dependencies scoring now state items).1.sent_items i
      = dictGet state.sent_items i := by
  have h0 : PollInv i (state, []) (dictGet state.sent_items i) :=
    ⟨List.any_eq_true.mpr ⟨(i, ts), hmem, by simp⟩, rfl, by simp⟩
  have h := poll_foldl_preserves_inv dry_run include_low_severity
    min_cvss_score stack dependencies scoring now i
    (dictGet state.sent_items i)
    (items.insertionSort
      (fun a b => _normalize_dt a.published ≤ _normalize_dt b.published))
    (state, []) h0
  exact ⟨h.2.2, h.2.1⟩

/-- C9: `was_sent` is pure key membership — the stored timestamp is
never consulted — so an entry aged past the retention window still
causes the item to be skipped by the poll loop (pruning only happens
after the scan). -/
theorem c9_was_sent_ignores_timestamp (dry_run include_low_severity : Bool)
    (min_cvss_score : Option ℚ) (stack : StackConfig)
    (dependencies : DependencyGraph) (scoring : ScoringConfig) (now : ℤ)
    (state : State) (items : List FeedItem) (i : String) (ts : ℤ)
    (hmem : (i, ts) ∈ state.sent_items)
    (hold : ts < now - 30 * 86400) :
    was_sent state i = true
    ∧ ∀ c ∈ (_poll_once_scan dry_run include_low_severity min_cvss_score
        stack dependencies scoring now state items).2, c.1.id ≠ i := by
  have h1 : was_sent state i = true :=
    List.any_eq_true.mpr ⟨(i, ts), hmem, by simp⟩
  have h0 : PollInv i (state, []) (dictGet state.sent_items i) :=
    ⟨h1, rfl, by simp⟩
  exact ⟨h1, (poll_foldl_preserves_inv dry_run include_low_severity
    min_cvss_score stack dependencies scoring now i
    (dictGet state.sent_items i)
    (items.insertionSort
      (fun a b => _normalize_dt a.published ≤ _normalize_dt b.published))
    (state, []) h0).2.2⟩

/-- A ledger already holding the identifier `adv-1` (timestamp 0). -/
def c2_state : State :=
  { last_poll := none, sent_items := [("adv-1", 0)] }

/-- A stack whose keyword list would make `c2_item` relevant if it were
evaluated. -/
def c2_stack : StackConfig :=
  { cloud := [], languages := [], packages := [], services := [],
    keywords := ["security"],
    matchCfg := { mode := "loose", synonyms := true, normalize_names := true },
    synonyms := [],
    asset_criticality := { services := [], packages := [] } }

/-- An empty dependency graph. -/
def empty_graph : DependencyGraph := { direct := [], transitive := [] }

/-- A feed item that matches `c2_stack` and carries the already-sent
identifier. -/
def c2_item : FeedItem :=
  { id := "adv-1", source := "nvd", title := "security incident",
    description := "details", url := "", published := 0, severity := none,
    cvss_score := none, affected_packages := [], raw_data := [],
    ecosystems := [], affected_services := [], affected_cloud := [],
    tags := [] }

/-- Witness for C2: at `now` one day after the entry's timestamp (inside
the retention window), the already-sent relevant item produces no
candidate and its ledger entry is untouched. -/
theorem c2_witness :
    ("adv-1", (0:ℤ)) ∈ c2_state.sent_items
    ∧ ((86400:ℤ) - 30 * 86400 ≤ 0)
    ∧ ((∀ c ∈ (_poll_once_scan false true none c2_stack empty_graph
          default_scoring 86400 c2_state [c2_item]).2, c.1.id ≠ "adv-1")
      ∧ dictGet (_poll_once_scan false true none c2_stack empty_graph
          default_scoring 86400 c2_state [c2_item]).1.sent_items "adv-1"
        = dictGet c2_state.sent_items "adv-1") :=
  ⟨by decide, by decide,
   c2_ledger_entry_never_reevaluated false true none c2_stack empty_graph
     default_scoring 86400 c2_state [c2_item] "adv-1" 0
     (by decide) (by decide)⟩

/-- Witness for C9: at `now` 100 days past the entry's timestamp (aged
out of the window), the item is still treated as sent and skipped. -/
theorem c9_witness :
    ("adv-1", (0:ℤ)) ∈ c2_state.sent_items
    ∧ ((0:ℤ) < 100 * 86400 - 30 * 86400)
    ∧ (was_sent c2_state "adv-1" = true
      ∧ ∀ c ∈ (_poll_once_scan true true none c2_stack empty_graph
          default_scoring (100 * 86400) c2_state [c2_item]).2,
          c.1.id ≠ "adv-1") :=
  ⟨by decide, by decide,
   c9_was_sent_ignores_timestamp true true none c2_stack empty_graph
     default_scoring (100 * 86400) c2_state [c2_item] "adv-1" 0
     (by decide) (by decide)⟩

/-- A stack declaring only the service `kubernetes`, with the given
match mode and synonyms enabled. -/
def c3_stack (mode : String) : StackConfig :=
  { cloud := [], languages := [], packages := [], services := ["kubernetes"],
    keywords := [],
    matchCfg := { mode := mode, synonyms := true, normalize_names := true },
    synonyms := [], asset_criticality := { services := [], packages := [] } }

/-- A feed item with the given free text and no affected-package /
affected-service / affected-cloud declarations. -/
def c3_item (title description : String) : FeedItem :=
  { id := "adv", source := "nvd", title := title, description := description,
    url := "", published := 0, severity := none, cvss_score := none,
    affected_packages := [], raw_data := [], ecosystems := [],
    affected_services := [], affected_cloud := [], tags := [] }

/-- C3: for a stack whose services include `kubernetes` and an item
whose text mentions the alias `k8s` but not `kubernetes` itself (and
nothing else matches), `calculate_relevance` is irrelevant in `strict`
mode and relevant in `loose` mode with synonyms enabled, via alias
resolution. -/
theorem c3_strict_vs_loose_alias (title description : String)
    (h1 : _contains_token (pyLower (title ++ " " ++ description)) "kubernetes" = false)
    (h2 : _contains_token (pyLower (title ++ " " ++ description)) "k8s" = true) :
    (calculate_relevance (c3_item title description) (c3_stack "strict")
        empty_graph).is_relevant = false
    ∧ (calculate_relevance (c3_item title description) (c3_stack "loose")
        empty_graph).is_relevant = true := by
  have emaps : _build_synonym_maps [] true =
    ([("k8s", "kubernetes"), ("aks", "kubernetes"), ("eks", "kubernetes"),
      ("gke", "kubernetes"), ("azure ad", "entra-id"), ("azure-ad", "entra-id"),
      ("entra", "entra-id"), ("amazon web services", "aws"), ("amazon aws", "aws")],
     [("kubernetes", ["k8s", "aks", "eks", "gke"]),
      ("entra-id", ["azure ad", "azure-ad", "entra"]),
      ("aws", ["amazon web services", "amazon aws"])]) := by rfl
  have ek : pyLower "kubernetes" = "kubernetes" := rfl
  have ps0 : pySortedSet [] = [] := rfl
  have ps1 : ∀ a : String, pySortedSet [a] = [a] := fun a => rfl
  constructor
  · simp [calculate_relevance, c3_item, c3_stack, empty_graph, emaps,
      _build_package_sets, _match_packages, _match_package_mentions,
      _match_services, _match_cloud, _match_keywords, _match_languages,
      _lower_set, dictGetD, dictGet, ek, ps0, ps1, h1]
  · simp [calculate_relevance, c3_item, c3_stack, empty_graph, emaps,
      _build_package_sets, _match_packages, _match_package_mentions,
      _match_services, _match_cloud, _match_keywords, _match_languages,
      _lower_set, dictGetD, dictGet, ek, ps0, ps1, h1, h2]

/-- Witness for C3 on the text `"k8s vulnerability"`. -/
theorem c3_witness :
    _contains_token (pyLower ("k8s vulnerability" ++ " " ++ "patch now")) "kubernetes" = false
    ∧ _contains_token (pyLower ("k8s vulnerability" ++ " " ++ "patch now")) "k8s" = true
    ∧ ((calculate_relevance (c3_item "k8s vulnerability" "patch now")
          (c3_stack "strict") empty_graph).is_relevant = false
      ∧ (calculate_relevance (c3_item "k8s vulnerability" "patch now")
          (c3_stack "loose") empty_graph).is_relevant = true) :=
  ⟨by decide, by decide,
   c3_strict_vs_loose_alias "k8s vulnerability" "patch now"
     (by decide) (by decide)⟩

/-- A loose-mode stack declaring the service `kubernetes` and the cloud
provider `aws`. -/
def c10_stack : StackConfig :=
  { cloud := ["aws"], languages := [], packages := [],
    services := ["kubernetes"], keywords := [],
    matchCfg := { mode := "loose", synonyms := true, normalize_names := true },
    synonyms := [], asset_criticality := { services := [], packages := [] } }

/-- C10: in loose mode, a service (resp. cloud) match achieved only
through an alias records the canonical term in `service_hits` (resp.
`cloud_hits`), never in `alias_hits`, so `_relevance_level` classifies
it as `"high"`. -/
theorem c10_alias_match_is_high (title description : String)
    (h1 : _contains_token (pyLower (title ++ " " ++ description)) "kubernetes" = false)
    (h2 : _contains_token (pyLower (title ++ " " ++ description)) "k8s" = true)
    (h3 : _contains_token (pyLower (title ++ " " ++ description)) "aws" = false)
    (h4 : _contains_token (pyLower (title ++ " " ++ description)) "amazon web services" = true) :
    (calculate_relevance (c3_item title description) c10_stack
        empty_graph).details.service_hits = ["kubernetes"]
    ∧ (calculate_relevance (c3_item title description) c10_stack
        empty_graph).details.cloud_hits = ["aws"]
    ∧ (calculate_relevance (c3_item title description) c10_stack
        empty_graph).details.alias_hits = []
    ∧ _relevance_level (calculate_relevance (c3_item title description)
        c10_stack empty_graph) = "high" := by
  have emaps : _build_synonym_maps [] true =
    ([("k8s", "kubernetes"), ("aks", "kubernetes"), ("eks", "kubernetes"),
      ("gke", "kubernetes"), ("azure ad", "entra-id"), ("azure-ad", "entra-id"),
      ("entra", "entra-id"), ("amazon web services", "aws"), ("amazon aws", "aws")],
     [("kubernetes", ["k8s", "aks", "eks", "gke"]),
      ("entra-id", ["azure ad", "azure-ad", "entra"]),
      ("aws", ["amazon web services", "amazon aws"])]) := by rfl
  have ek : pyLower "kubernetes" = "kubernetes" := rfl
  have ea : pyLower "aws" = "aws" := rfl
  refine ⟨?_, ?_, ?_, ?_⟩ <;>
    simp [calculate_relevance, _relevance_level, c3_item, c10_stack,
      empty_graph, emaps, _build_package_sets, _match_packages,
      _match_package_mentions, _match_services, _match_cloud,
      _match_keywords, _match_languages, _lower_set, setAdd,
      dictGetD, dictGet, ek, ea, h1, h2, h3, h4]

/-- Witness for C10 on the text `"k8s outage on amazon web services"`. -/
theorem c10_witness :
    _contains_token (pyLower ("k8s outage" ++ " " ++ "on amazon web services")) "kubernetes" = false
    ∧ _contains_token (pyLower ("k8s outage" ++ " " ++ "on amazon web services")) "k8s" = true
    ∧ _contains_token (pyLower ("k8s outage" ++ " " ++ "on amazon web services")) "aws" = false
    ∧ _contains_token (pyLower ("k8s outage" ++ " " ++ "on amazon web services")) "amazon web services" = true
    ∧ ((calculate_relevance (c3_item "k8s outage" "on amazon web services")
          c10_stack empty_graph).details.service_hits = ["kubernetes"]
      ∧ (calculate_relevance (c3_item "k8s outage" "on amazon web services")
          c10_stack empty_graph).details.cloud_hits = ["aws"]
      ∧ (calculate_relevance (c3_item "k8s outage" "on amazon web services")
          c10_stack empty_graph).details.alias_hits = []
      ∧ _relevance_level (calculate_relevance
          (c3_item "k8s outage" "on amazon web services") c10_stack
          empty_graph) = "high") :=
  ⟨by decide, by decide, by decide, by decide,
   c10_alias_match_is_high "k8s outage" "on amazon web services"
     (by decide) (by decide) (by decide) (by decide)⟩

/-- Witness for C4 at a concrete P0-scored item. -/
theorem c4_witness :
    _match_always_page c4_item c4_match [] = none
    ∧ (_confidence_signal c4_item).1 = false
    ∧ (classify_alert c4_item c4_match c4_score "quiet" [] true).immediate = false :=
  ⟨by decide, by decide,
   c4_quiet_defers_without_confidence c4_item c4_match c4_score []
     (by decide) (by decide)⟩

/-! ## Nonnegativity of the scoring sub-scores -/

lemma foldl_weight_ge (l : List String) (g : String → Option ℚ) :
    ∀ b : ℚ, b ≤ l.foldl (fun b s =>
      match g s with
      | some w => if w ≠ 0 then max b (10 * w) else b
      | none => b) b := by
  induction l with
  | nil => intro b; exact le_refl b
  | cons hd tl ih =>
    intro b
    refine le_trans ?_ (ih _)
    dsimp only
    cases hgd : g hd with
    | none => exact le_refl b
    | some w =>
      dsimp only
      rcases eq_or_ne w 0 with hw | hw
      · rw [if_neg (by simp [hw])]
      · rw [if_pos hw]
        exact le_max_left b (10 * w)

lemma criticality_boost_nonneg (details : MatchDetails) (stack : StackConfig) :
    0 ≤ _criticality_boost details stack := by
  unfold _criticality_boost
  refine le_trans ?_ (foldl_weight_ge _ _ _)
  exact foldl_weight_ge _ _ 0

lemma score_severity_nonneg (item : FeedItem) : 0 ≤ (_score_severity item).1 := by
  unfold _score_severity
  split
  · rename_i c hc
    apply pyRound_nonneg
    have h1 : (0:ℚ) ≤ min (max c 0) 10 := le_min (le_max_right c 0) (by norm_num)
    exact mul_nonneg h1 (by norm_num)
  · split
    · rename_i sev hsev
      split
      · rename_i mapped hmap
        have hmem : ∃ p ∈ SEVERITY_MAP, p.2 = mapped := by
          unfold dictGet at hmap
          cases hf : SEVERITY_MAP.find? (fun p => p.1 == pyLower sev) with
          | none => rw [hf] at hmap; simp at hmap
          | some p =>
            rw [hf] at hmap
            simp at hmap
            exact ⟨p, List.mem_of_find?_eq_some hf, hmap⟩
        obtain ⟨p, hp, hv⟩ := hmem
        simp only [SEVERITY_MAP, List.mem_cons, List.not_mem_nil, or_false] at hp
        rcases hp with rfl | rfl | rfl | rfl <;> simp at hv <;> omega
      · omega
    · omega

lemma score_exploitability_nonneg (item : FeedItem) (scoring : ScoringConfig) :
    0 ≤ (_score_exploitability item scoring).1 := by
  simp only [_score_exploitability]
  refine le_min ?_ (by norm_num)
  repeat' first | split | dsimp only
  all_goals omega

lemma score_relevance_nonneg (mres : MatchResult) (stack : StackConfig) :
    0 ≤ (_score_relevance mres stack).1 := by
  have hbase : (0:ℤ) ≤ (if !mres.details.direct_package_hits.isEmpty then ((100:ℤ), ["Direct dependency match"])
    else if !mres.details.transitive_package_hits.isEmpty then (70, ["Transitive dependency match"])
    else if !mres.details.service_hits.isEmpty then (60, ["Service match"])
    else if !mres.details.cloud_hits.isEmpty then (50, ["Cloud match"])
    else if !mres.details.keyword_hits.isEmpty then (35, ["Keyword match"])
    else if !mres.details.language_hits.isEmpty then (25, ["Language match"])
    else (0, [])).1 := by
    split <;> try omega
    split <;> try omega
    split <;> try omega
    split <;> try omega
    split <;> try omega
    split <;> omega
  simp only [_score_relevance]
  split
  · refine le_min (by norm_num) (pyRound_nonneg ?_)
    have hcb := criticality_boost_nonneg mres.details stack
    have hbq : (0:ℚ) ≤ ((if !mres.details.direct_package_hits.isEmpty then ((100:ℤ), ["Direct dependency match"])
      else if !mres.details.transitive_package_hits.isEmpty then (70, ["Transitive dependency match"])
      else if !mres.details.service_hits.isEmpty then (60, ["Service match"])
      else if !mres.details.cloud_hits.isEmpty then (50, ["Cloud match"])
      else if !mres.details.keyword_hits.isEmpty then (35, ["Keyword match"])
      else if !mres.details.language_hits.isEmpty then (25, ["Language match"])
      else (0, [])).1 : ℚ) := by exact_mod_cast hbase
    linarith
  · exact hbase

lemma score_recency_nonneg (now : ℤ) (item : FeedItem) :
    0 ≤ (_score_recency now item).1 := by
  simp only [_score_recency]
  split
  · omega
  · exact le_max_left 0 _

lemma source_boost_nonneg (item : FeedItem) (scoring : ScoringConfig) :
    0 ≤ _source_boost item scoring := by
  unfold _source_boost
  split <;> omega

/-! ## C6 and C7 -/

/-- A scoring configuration with a negative severity weight — accepted
verbatim by `config._load_scoring`, which converts each weight with
`float()` and performs no sign check. -/
def c6_scoring : ScoringConfig :=
  { enabled := true,
    weights := [("severity", -1), ("exploitability", 25/100),
                ("relevance", 2/10), ("recency", 1/10)],
    thresholds := [("P0", 85), ("P1", 70), ("P2", 50), ("P3", 0)],
    prefer_sources := [],
    keywords := [("exploited_in_wild", []), ("poc", [])] }

/-- A CVSS-10 item from a non-preferred source with no exploitability
signals, published 100 days before the poll. -/
def c6_item : FeedItem :=
  { id := "c", source := "nvd", title := "hello", description := "world",
    url := "", published := 0, severity := none, cvss_score := some 10,
    affected_packages := [], raw_data := [], ecosystems := [],
    affected_services := [], affected_cloud := [], tags := [] }

/-- An empty (irrelevant) match result. -/
def c6_match : MatchResult :=
  { is_relevant := false, reasons := [], details := {} }

/-- A stack with no declarations and no asset-criticality weights. -/
def c6_stack : StackConfig :=
  { cloud := [], languages := [], packages := [], services := [],
    keywords := [],
    matchCfg := { mode := "loose", synonyms := true, normalize_names := true },
    synonyms := [], asset_criticality := { services := [], packages := [] } }

/-- C6 counterexample: with a scoring configuration whose severity
weight is `-1` (which `_load_scoring` accepts), `score_alert` returns
`-100` — outside `[0, 100]` — because the code clamps the total only
from above (`min(100, ...)`), never from below. -/
theorem c6_counterexample :
    (score_alert (100 * 86400) c6_item c6_match c6_scoring c6_stack).score = -100
    ∧ (score_alert (100 * 86400) c6_item c6_match c6_scoring c6_stack).score < 0 := by
  have hval : (score_alert (100 * 86400) c6_item c6_match c6_scoring c6_stack).score = -100 := by
    have hsev : (_score_severity c6_item).1 = 100 := by
      simp only [_score_severity, c6_item]
      rw [show (min (max (10:ℚ) 0) 10 * 10) = ((100:ℤ):ℚ) by norm_num]
      exact pyRound_intCast 100
    have hexpl : (_score_exploitability c6_item c6_scoring).1 = 0 := by decide
    have hrel : (_score_relevance c6_match c6_stack).1 = 0 := by
      simp [_score_relevance, _criticality_boost, c6_match, c6_stack, setUnion]
    have hrec : (_score_recency (100 * 86400) c6_item).1 = 0 := by
      simp only [_score_recency, c6_item]
      rw [show (100 - max 0 ((((100 * 86400 : ℤ) - 0 : ℤ) : ℚ) / 86400) * 3)
            = ((-200:ℤ):ℚ) by push_cast; norm_num]
      rw [pyRound_intCast]
      norm_num
    have hboost : _source_boost c6_item c6_scoring = 0 := by decide
    have he : c6_scoring.enabled = true := rfl
    simp only [score_alert, he, Bool.not_true, Bool.false_eq_true, if_false]
    rw [hsev, hexpl, hrel, hrec, hboost]
    rw [show ((100:ℤ):ℚ) * dictGetD c6_scoring.weights "severity" (45/100)
          + ((0:ℤ):ℚ) * dictGetD c6_scoring.weights "exploitability" (25/100)
          + ((0:ℤ):ℚ) * dictGetD c6_scoring.weights "relevance" (2/10)
          + ((0:ℤ):ℚ) * dictGetD c6_scoring.weights "recency" (1/10)
          + ((0:ℤ):ℚ) = ((-100:ℤ):ℚ) by
        rw [show dictGetD c6_scoring.weights "severity" (45/100) = -1 from rfl]
        push_cast
        norm_num]
    rw [pyRound_intCast]
    norm_num
  exact ⟨hval, by rw [hval]; norm_num⟩

/-- C6 as amended: when the four configured weights are non-negative
(as all defaults are), `score_alert` always returns a score in
`[0, 100]`: the sub-scores and the source boost are non-negative, so the
weighted sum is non-negative, and the total is clamped above at 100. -/
theorem c6_amended_score_in_range (now : ℤ) (item : FeedItem)
    (mres : MatchResult) (scoring : ScoringConfig) (stack : StackConfig)
    (hs : 0 ≤ dictGetD scoring.weights "severity" (45/100))
    (he : 0 ≤ dictGetD scoring.weights "exploitability" (25/100))
    (hr : 0 ≤ dictGetD scoring.weights "relevance" (2/10))
    (hc : 0 ≤ dictGetD scoring.weights "recency" (1/10)) :
    0 ≤ (score_alert now item mres scoring stack).score
    ∧ (score_alert now item mres scoring stack).score ≤ 100 := by
  unfold score_alert
  split
  · constructor <;> norm_num
  · dsimp only
    constructor
    · refine le_min (by norm_num) (pyRound_nonneg ?_)
      have h1 : (0:ℚ) ≤ ((_score_severity item).1 : ℚ) := by
        exact_mod_cast score_severity_nonneg item
      have h2 : (0:ℚ) ≤ ((_score_exploitability item scoring).1 : ℚ) := by
        exact_mod_cast score_exploitability_nonneg item scoring
      have h3 : (0:ℚ) ≤ ((_score_relevance mres stack).1 : ℚ) := by
        exact_mod_cast score_relevance_nonneg mres stack
      have h4 : (0:ℚ) ≤ ((_score_recency now item).1 : ℚ) := by
        exact_mod_cast score_recency_nonneg now item
      have h5 : (0:ℚ) ≤ ((_source_boost item scoring : ℤ) : ℚ) := by
        exact_mod_cast source_boost_nonneg item scoring
      exact add_nonneg (add_nonneg (add_nonneg (add_nonneg
        (mul_nonneg h1 hs) (mul_nonneg h2 he)) (mul_nonneg h3 hr))
        (mul_nonneg h4 hc)) h5
    · exact min_le_left _ _

/-- Witness for the amended C6 at the default scoring configuration. -/
theorem c6_amended_witness :
    (0 ≤ dictGetD default_scoring.weights "severity" (45/100))
    ∧ (0 ≤ dictGetD default_scoring.weights "exploitability" (25/100))
    ∧ (0 ≤ dictGetD default_scoring.weights "relevance" (2/10))
    ∧ (0 ≤ dictGetD default_scoring.weights "recency" (1/10))
    ∧ (0 ≤ (score_alert 0 c6_item c6_match default_scoring c6_stack).score
        ∧ (score_alert 0 c6_item c6_match default_scoring c6_stack).score ≤ 100) :=
  ⟨by rw [show dictGetD default_scoring.weights "severity" (45/100) = 45/100 from rfl]; norm_num,
   by rw [show dictGetD default_scoring.weights "exploitability" (25/100) = 25/100 from rfl]; norm_num,
   by rw [show dictGetD default_scoring.weights "relevance" (2/10) = 2/10 from rfl]; norm_num,
   by rw [show dictGetD default_scoring.weights "recency" (1/10) = 1/10 from rfl]; norm_num,
   c6_amended_score_in_range 0 c6_item c6_match default_scoring c6_stack
     (by rw [show dictGetD default_scoring.weights "severity" (45/100) = 45/100 from rfl]; norm_num)
     (by rw [show dictGetD default_scoring.weights "exploitability" (25/100) = 25/100 from rfl]; norm_num)
     (by rw [show dictGetD default_scoring.weights "relevance" (2/10) = 2/10 from rfl]; norm_num)
     (by rw [show dictGetD default_scoring.weights "recency" (1/10) = 1/10 from rfl]; norm_num)⟩

/-- C7: with the default scoring configuration, `score_alert` is
monotone non-decreasing in the item's CVSS value, all other inputs held
fixed: severity is the only sub-score reading `cvss_score`, its value is
monotone in it, the severity weight is the positive default 0.45, and
rounding and the upper clamp are monotone. -/
theorem c7_default_score_monotone_in_cvss (now : ℤ) (stack : StackConfig)
    (mres : MatchResult) (item : FeedItem) (c1 c2 : ℚ) (h : c1 ≤ c2) :
    (score_alert now { item with cvss_score := some c1 } mres
        default_scoring stack).score
      ≤ (score_alert now { item with cvss_score := some c2 } mres
        default_scoring stack).score := by
  have hsev : (_score_severity { item with cvss_score := some c1 }).1
      ≤ (_score_severity { item with cvss_score := some c2 }).1 := by
    simp only [_score_severity]
    exact pyRound_mono (by gcongr)
  have eexpl : _score_exploitability { item with cvss_score := some c1 } default_scoring
      = _score_exploitability { item with cvss_score := some c2 } default_scoring := rfl
  have erec : _score_recency now { item with cvss_score := some c1 }
      = _score_recency now { item with cvss_score := some c2 } := rfl
  have eboost : _source_boost { item with cvss_score := some c1 } default_scoring
      = _source_boost { item with cvss_score := some c2 } default_scoring := rfl
  unfold score_alert
  rw [show (!default_scoring.enabled) = false from rfl]
  simp only [Bool.false_eq_true, if_false]
  rw [eexpl, erec, eboost]
  refine min_le_min (le_refl 100) (pyRound_mono ?_)
  rw [show dictGetD default_scoring.weights "severity" (45/100) = 45/100 from rfl]
  have hsevQ : ((_score_severity { item with cvss_score := some c1 }).1 : ℚ)
      ≤ ((_score_severity { item with cvss_score := some c2 }).1 : ℚ) := by
    exact_mod_cast hsev
  linarith

/-- Witness for C7 at CVSS values 3 ≤ 5 on a concrete item. -/
theorem c7_witness :
    ((3:ℚ) ≤ 5)
    ∧ (score_alert 0 { c6_item with cvss_score := some 3 } c6_match
        default_scoring c6_stack).score
      ≤ (score_alert 0 { c6_item with cvss_score := some 5 } c6_match
        default_scoring c6_stack).score :=
  ⟨by norm_num,
   c7_default_score_monotone_in_cvss 0 c6_stack c6_match c6_item 3 5 (by norm_num)⟩

end Signl
